import Mathlib

/-!
Shallow embedding of `travel_planner.py` (AMD-Slingshot-H2S): the
`convert_currency` tool, the `TravelRequest` input schema, the agent and
workflow declarations, and — modelled from the spec where the executing
framework is not part of the repository — the workflow engine and the
tool-invocation fallback chain.
-/

namespace TravelPlanner

/-! ## Python JSON values

Model of the values `json.loads` can produce.  Numeric literals are carried
as their rendered decimal string (the claims never compute with them), so
floating point stays out of the embedding. -/

/-- Values produced by `json.loads`: strings, numbers (carried as their
rendered literal), booleans, `None`, lists and dicts (association lists,
later duplicate keys overriding earlier ones, as in `json.loads`). -/
inductive Json where
  | str : String → Json
  | num : String → Json
  | bool : Bool → Json
  | null : Json
  | arr : List Json → Json
  | obj : List (String × Json) → Json
deriving Repr

/-- Python `repr` of a JSON-derived value (quoting ignores escape
sequences inside strings, which no claim depends on). -/
def pyRepr : Json → String
  | .str s => "\x27" ++ s ++ "\x27"
  | .num lit => lit
  | .bool b => if b then ("True") else ("False")
  | .null => "None"
  | .arr xs => "[" ++ String.intercalate (", ") (xs.attach.map fun x => pyRepr x.1) ++ "]"
  | .obj fs =>
      "\x7b" ++
        String.intercalate (", ")
          (fs.attach.map fun kv => "\x27" ++ kv.1.1 ++ "\x27: " ++ pyRepr kv.1.2) ++
        "\x7d"
decreasing_by
  · have := List.sizeOf_lt_of_mem x.2; simp at this ⊢; omega
  · obtain ⟨⟨k0, v0⟩, hm⟩ := kv
    have := List.sizeOf_lt_of_mem hm
    simp at this ⊢
    omega

/-- Python `str` of a JSON-derived value: the string itself for `str`,
`repr` for everything else (as in f-string formatting of the payload). -/
def pyStr : Json → String
  | .str s => s
  | v => pyRepr v

/-- Boolean test that list `p` occurs at the start of list `s`. -/
def strStarts : List Char → List Char → Bool
  | _, [] => true
  | [], _ :: _ => false
  | a :: s, b :: p => a == b && strStarts s p

/-- Boolean test that `p` occurs contiguously somewhere in `s`
(Python substring containment). -/
def strHasSeg : List Char → List Char → Bool
  | [], p => p.isEmpty
  | a :: s, p => strStarts (a :: s) p || strHasSeg s p

/-- Python string containment `sub in s`. -/
def pyStrIn (s sub : String) : Bool :=
  strHasSeg s.data sub.data

/-- Python exceptions that the embedded code can raise. -/
inductive PyExc where
  | typeError : String → PyExc
  | keyError : String → PyExc
deriving DecidableEq, Repr

/-- Membership of a key among a dict\x27s entries. -/
def hasKeyB (fields : List (String × Json)) (k : String) : Bool :=
  fields.any fun kv => kv.1 == k

/-- Lookup in a `json.loads` dict: the LAST binding of a key wins. -/
def dictGet : List (String × Json) → String → Option Json
  | [], _ => none
  | kv :: rest, k =>
    match dictGet rest k with
    | some v => some v
    | none => if kv.1 == k then some kv.2 else none

/-- Python membership test `k in payload`: key lookup on a dict, element
equality on a list, substring containment on a string, and an uncaught
`TypeError` on numbers, booleans and `None` (not iterable). -/
def pyIn (k : String) : Json → Except PyExc Bool
  | .obj fields => .ok (hasKeyB fields k)
  | .arr xs => .ok (xs.any fun v => match v with | .str s => s == k | _ => false)
  | .str s => .ok (pyStrIn s k)
  | .num _ => .error (.typeError ("argument of type \x27float\x27 is not iterable"))
  | .bool _ => .error (.typeError ("argument of type \x27bool\x27 is not iterable"))
  | .null => .error (.typeError ("argument of type \x27NoneType\x27 is not iterable"))

/-- Python subscript `payload[k]` with a string key: dict lookup (KeyError
when absent), `TypeError` on lists and strings (indices must be integers)
and on the remaining scalars. -/
def pySubscript (v : Json) (k : String) : Except PyExc Json :=
  match v with
  | .obj fields =>
    match dictGet fields k with
    | some w => .ok w
    | none => .error (.keyError k)
  | .arr _ => .error (.typeError ("list indices must be integers or slices, not str"))
  | .str _ => .error (.typeError ("string indices must be integers"))
  | .num _ => .error (.typeError ("\x27float\x27 object is not subscriptable"))
  | .bool _ => .error (.typeError ("\x27bool\x27 object is not subscriptable"))
  | .null => .error (.typeError ("\x27NoneType\x27 object is not subscriptable"))

/-! ## The `convert_currency` tool (lines 26-67 of `travel_planner.py`)

The network is a parameter `fetch : String → FetchOutcome` mapping the
request URL to what `urlopen`/`read`/`json.loads` deliver; the `amount`
float is carried as the decimal string `urlencode` renders it to. -/

/-- Python `str.upper()` applied character-wise; `Char.toUpper` matches it
on the ASCII currency codes the tool is given. -/
def pyUpper (s : String) : String :=
  ⟨s.data.map Char.toUpper⟩

/-- Characters `urllib.parse.quote_plus` leaves unencoded (letters, digits
and `_.-~`). -/
def quoteSafe (c : Char) : Bool :=
  c.isAlphanum || c == ('_') || c == ('.') || c == ('-') || c == ('~')

/-- Hexadecimal digit (uppercase, as `quote` emits). -/
def hexDigit (n : Nat) : Char :=
  if n < 10 then Char.ofNat (48 + n) else Char.ofNat (55 + n)

/-- UTF-8 encoding of one character as its list of bytes. -/
def utf8Bytes (c : Char) : List Nat :=
  let n := c.toNat
  if n < 128 then [n]
  else if n < 2048 then [192 + n / 64, 128 + n % 64]
  else if n < 65536 then [224 + n / 4096, 128 + n / 64 % 64, 128 + n % 64]
  else [240 + n / 262144, 128 + n / 4096 % 64, 128 + n / 64 % 64, 128 + n % 64]

/-- Percent-encoding of one character under `quote_plus`: safe characters
kept, space mapped to `+`, everything else `%XX` per UTF-8 byte. -/
def quotePlusChar (c : Char) : List Char :=
  if quoteSafe c then [c]
  else if c == (' ') then [('+')]
  else (utf8Bytes c).flatMap fun b => [('%'), hexDigit (b / 16), hexDigit (b % 16)]

/-- Python `urllib.parse.quote_plus` over a whole string. -/
def quotePlus (s : String) : String :=
  ⟨s.data.flatMap quotePlusChar⟩

/-- Python `urllib.parse.urlencode`: `key=value` pairs joined by `&`, each
side `quote_plus`-encoded. -/
def urlencode (ps : List (String × String)) : String :=
  String.intercalate ("&") (ps.map fun p => quotePlus p.1 ++ "=" ++ quotePlus p.2)

/-- Request URL built by `convert_currency` (lines 44-52): base URL plus
the encoded `api_key`, uppercased `from`/`to`, and `amount` parameters. -/
def buildRequestUrl (api_key from_currency to_currency amount : String) : String :=
  "https://api.unirateapi.com/api/convert" ++ "?" ++
    urlencode
      [(("api_key"), api_key), (("from"), pyUpper from_currency),
       (("to"), pyUpper to_currency), (("amount"), amount)]

/-- Outcome of the `urlopen(...)`, `response.read().decode()` and
`json.loads` block: an `HTTPError` with a status code, a `URLError` with a
reason (network failure or timeout of the bounded 20-second wait), any
other exception rendered to a message (e.g. a JSON decode error), or a
successfully parsed body. -/
inductive FetchOutcome where
  | httpError : Nat → FetchOutcome
  | urlError : String → FetchOutcome
  | raised : String → FetchOutcome
  | ok : Json → FetchOutcome

/-- Embedding of `convert_currency` (lines 26-67).  `api_key` is
`os.getenv("RATE_CONVERTER_API_KEY")`; the returned pair is the function
result (`Except.error` when an exception propagates out of the function)
together with the list of network requests issued.  Python truthiness of
`not api_key` makes the empty string behave like an unset variable. -/
def convert_currency (api_key : Option String) (fetch : String → FetchOutcome)
    (from_currency to_currency amount : String) :
    Except PyExc String × List String :=
  match api_key with
  | none => (.ok ("Currency conversion failed: RATE_CONVERTER_API_KEY is not set."), [])
  | some key =>
    if key == "" then
      (.ok ("Currency conversion failed: RATE_CONVERTER_API_KEY is not set."), [])
    else
      let requestUrl := buildRequestUrl key from_currency to_currency amount
      match fetch requestUrl with
      | .httpError code =>
        (.ok ("Currency conversion failed: HTTP " ++ toString code ++ " from UnirateAPI."),
         [requestUrl])
      | .urlError reason =>
        (.ok ("Currency conversion failed: " ++ reason ++ "."), [requestUrl])
      | .raised msg =>
        (.ok ("Currency conversion failed: " ++ msg ++ "."), [requestUrl])
      | .ok payload =>
        match pyIn ("result") payload with
        | .error e => (.error e, [requestUrl])
        | .ok hasResult =>
          if hasResult then
            match pyIn ("to") payload with
            | .error e => (.error e, [requestUrl])
            | .ok hasTo =>
              if hasTo then
                match pySubscript payload ("result") with
                | .error e => (.error e, [requestUrl])
                | .ok v =>
                  match pySubscript payload ("to") with
                  | .error e => (.error e, [requestUrl])
                  | .ok w =>
                    (.ok ("Converted amount: " ++ pyStr v ++ " " ++ pyStr w), [requestUrl])
              else
                (.ok ("Currency conversion failed: " ++ pyStr payload), [requestUrl])
          else
            (.ok ("Currency conversion failed: " ++ pyStr payload), [requestUrl])

/-! ## The `TravelRequest` input schema (lines 72-84) -/

/-- Python values a raw run input can supply for a field. -/
inductive PyVal where
  | str : String → PyVal
  | int : Int → PyVal
  | bool : Bool → PyVal
  | none_ : PyVal
  | list : List PyVal → PyVal
deriving Repr

/-- Field types occurring in `TravelRequest`: `str` and `List[str]`. -/
inductive FieldTy where
  | str : FieldTy
  | listStr : FieldTy
deriving DecidableEq, Repr

/-- Declared fields of `TravelRequest`, in declaration order (lines 73-84):
eleven `str` fields and `interests_activities : List[str]`. -/
def travelRequestFields : List (String × FieldTy) :=
  [(("destination"), .str), (("travel_purpose"), .str), (("travel_companions"), .str),
   (("travel_dates"), .str), (("departure_location"), .str), (("date_flexibility"), .str),
   (("accommodation_type"), .str), (("budget"), .str),
   (("interests_activities"), .listStr), (("travel_style"), .str),
   (("duration"), .str), (("budget_flexibility"), .str)]

/-- Test that a value is a Python string. -/
def isStrB : PyVal → Bool
  | .str _ => true
  | _ => false

/-- Typing judgement for one field value. -/
def typeOk : FieldTy → PyVal → Bool
  | .str, v => isStrB v
  | .listStr, .list xs => xs.all isStrB
  | .listStr, _ => false

/-- Check of one declared field against a raw input: present and of the
declared type. -/
def fieldOk (input : String → Option PyVal) (f : String × FieldTy) : Bool :=
  match input f.1 with
  | some v => typeOk f.2 v
  | none => false

/-- Modelled from the spec: pydantic validation of a raw input (a dict,
modelled as a partial map from field name to value) against the
`TravelRequest` schema — every declared field must be present with the
declared type. -/
def validateTR (input : String → Option PyVal) : Bool :=
  travelRequestFields.all (fieldOk input)

/-! ## Agent and workflow declarations (lines 89-299) -/

/-- Declaration of one agent: name, model id, tool capabilities in declared
order, the optional per-invocation tool-call bound, behavioral
instructions (opaque configuration), and the markdown flag. -/
structure AgentDef where
  name : String
  modelId : String
  toolNames : List String
  tool_call_limit : Option Nat
  instructions : List String
  markdown : Bool
deriving DecidableEq, Repr

/-- The `weather_agent` declaration (lines 89-105). -/
def weather_agent : AgentDef :=
  { name := "Weather Specialist"
    modelId := "meta/llama-3.3-70b-instruct"
    toolNames := [("WebSearchTools(backend=google)"), ("TavilyTools")]
    tool_call_limit := none
    instructions :=
      [("You are a weather and climate research specialist for travel planning."),
       ("Return destination-specific findings only; avoid generic travel advice."),
       ("Using the user\x27s `destination`, `travel_dates`, and `date_flexibility`:"),
       ("- Research historical weather patterns and forecasts for the destination during the travel dates."),
       ("- Highlight temperature ranges, precipitation likelihood, and any extreme weather risks."),
       ("- Suggest the best time windows if dates are flexible."),
       ("- Recommend packing essentials based on expected conditions."),
       ("- Output exactly: Best travel window, day-level weather notes, risk alerts, and a packing checklist.")]
    markdown := true }

/-- The `destination_agent` declaration (lines 107-123). -/
def destination_agent : AgentDef :=
  { name := "Destination Researcher"
    modelId := "meta/llama-3.3-70b-instruct"
    toolNames := [("WebSearchTools(backend=google)"), ("TavilyTools")]
    tool_call_limit := none
    instructions :=
      [("You are a destination research specialist."),
       ("Return concrete, destination-specific details only; avoid generic summaries."),
       ("Using the user\x27s `destination`, `travel_purpose`, and `travel_companions`:"),
       ("- Provide an overview of the destination: culture, language, currency, and safety tips."),
       ("- Highlight visa/entry requirements based on `departure_location`."),
       ("- Note any travel advisories or health precautions."),
       ("- Tailor cultural tips to the `travel_purpose` (e.g. business etiquette vs. leisure customs)."),
       ("- Output as: Entry requirements, safety/health alerts, local norms, and practical traveler notes.")]
    markdown := true }

/-- The `accommodation_agent` declaration (lines 125-142). -/
def accommodation_agent : AgentDef :=
  { name := "Accommodation Advisor"
    modelId := "meta/llama-3.3-70b-instruct"
    toolNames := [("WebSearchTools(backend=google)")]
    tool_call_limit := none
    instructions :=
      [("You are an accommodation research specialist."),
       ("Give real options with approximate prices; do not provide generic hotel advice."),
       ("Using `destination`, `accommodation_type`, `budget`, `travel_style`, `duration`, and `travel_companions`:"),
       ("- Research and recommend accommodation options matching the preferred `accommodation_type`."),
       ("- Provide price ranges per night and total estimated cost for the `duration`."),
       ("- Suggest neighborhoods/areas best suited for the `travel_purpose`."),
       ("- Flag options within `budget` and note if `budget_flexibility` allows upgrades."),
       ("- Output at least 3 named stay options."),
       ("- Output as a table with: property name, area, nightly price, trip total, pros, and budget fit.")]
    markdown := true }

/-- The `transport_agent` declaration (lines 144-161). -/
def transport_agent : AgentDef :=
  { name := "Transportation Specialist"
    modelId := "meta/llama-3.3-70b-instruct"
    toolNames := [("WebSearchTools(backend=google)")]
    tool_call_limit := none
    instructions :=
      [("You are a transportation research specialist."),
       ("Provide concrete route and cost options; avoid generic transport advice."),
       ("Using `departure_location`, `destination`, `travel_dates`, `budget`, and `travel_style`:"),
       ("- Research flight options, layovers, and estimated costs from `departure_location`."),
       ("- Suggest local transport options at the destination (public transit, car rental, rideshare)."),
       ("- Recommend the best transport mode based on `travel_companions` (e.g. car rental for families)."),
       ("- Provide cost estimates for both intercity and local transport within `budget`."),
       ("- Output at least 2 named transport choices (e.g., specific flight/rail/bus options)."),
       ("- Output as: outbound/inbound options, local mobility plan, estimated total transport cost.")]
    markdown := true }

/-- The `activities_agent` declaration (lines 166-183). -/
def activities_agent : AgentDef :=
  { name := "Activities Curator"
    modelId := "meta/llama-3.3-70b-instruct"
    toolNames := [("WebSearchTools(backend=google)"), ("TavilyTools")]
    tool_call_limit := none
    instructions :=
      [("You are an activities and experiences curator."),
       ("Produce day-wise, bookable activities, not generic lists."),
       ("Using `destination`, `interests_activities`, `travel_style`, `travel_companions`, and `travel_purpose`:"),
       ("- Curate a list of activities and experiences matching the user\x27s `interests_activities`."),
       ("- Tailor suggestions to `travel_companions` (kid-friendly, romantic, group-friendly)."),
       ("- Include estimated costs per activity and factor in the overall `budget`."),
       ("- Organize activities by day considering weather research from the Weather Specialist."),
       ("- Balance must-see attractions with off-the-beaten-path experiences based on `travel_style`."),
       ("- Output as day-by-day blocks with time slot, activity, duration, cost, and booking note.")]
    markdown := true }

/-- The `local_insider` declaration (lines 185-203): the single agent
declaring a `tool_call_limit`, of 10. -/
def local_insider : AgentDef :=
  { name := "Local Insider"
    modelId := "meta/llama-3.3-70b-instruct"
    toolNames := [("WebSearchTools(backend=google)"), ("TavilyTools")]
    tool_call_limit := some 10
    instructions :=
      [("You are a local insider and cultural advisor."),
       ("Provide practical, place-specific recommendations only."),
       ("Using `destination`, `interests_activities`, `travel_style`, and `travel_purpose`:"),
       ("- Share hidden gems, local favorites, and insider tips not found in typical guides."),
       ("- Recommend local restaurants, street food, and dining experiences within `budget`."),
       ("- Provide cultural do\x27s and don\x27ts specific to the destination."),
       ("- Suggest the best local experiences for the user\x27s `travel_companions` type."),
       ("- Include practical tips: tipping customs, bargaining, local apps to download."),
       ("- Output as: hidden gems, food picks, etiquette notes, and traveler hacks with areas and price ranges.")]
    markdown := true }

/-- The `budget_agent` declaration (lines 208-230), whose tool list and
instructions declare the currency-conversion fallback chain:
`convert_currency` first, then the YFinance forex tool. -/
def budget_agent : AgentDef :=
  { name := "Budget Optimizer"
    modelId := "meta/llama-3.3-70b-instruct"
    toolNames := [("WebSearchTools(backend=google)"), ("YFinanceTools"), ("convert_currency")]
    tool_call_limit := none
    instructions :=
      [("You are a travel budget optimization specialist."),
       ("Always produce a full numeric budget, never generic money-saving advice only."),
       ("Using `budget`, `budget_flexibility`, `duration`, `travel_style`, and all cost data from other agents:"),
       ("- Create a detailed budget breakdown: flights, accommodation, transport, activities, food, misc."),
       ("- Identify money-saving opportunities without sacrificing the `travel_style`."),
       ("- If total exceeds `budget`, suggest trade-offs based on `budget_flexibility`."),
       ("- Provide a \x27strict budget\x27 plan and an \x27optimal experience\x27 plan if flexibility allows."),
       ("- Include a contingency/emergency fund recommendation."),
       ("- Prefer the `convert_currency` tool for currency conversion."),
       ("- If `convert_currency` fails, fall back to YFinanceTools (e.g. USDEUR=X forex pairs)."),
       ("- Output format must include: assumptions, line-item table, totals, gap vs budget, and final recommendation."),
       ("- Include a validated cost table with subtotal checks."),
       ("- Subtotals must sum to the grand total exactly."),
       ("- Show arithmetic checks explicitly (e.g., flights + stay + local transport + activities + food + misc = total).")]
    markdown := true }

/-- The `booking_agent` declaration (lines 232-262). -/
def booking_agent : AgentDef :=
  { name := "Booking Assistant"
    modelId := "meta/llama-3.3-70b-instruct"
    toolNames := [("WebSearchTools")]
    tool_call_limit := none
    instructions :=
      [("You are a booking and itinerary compilation specialist."),
       ("Your output is the final answer shown to the user. It must be a complete, structured travel plan."),
       ("Do not return generic tips, high-level strategy lists, or placeholders."),
       ("Using all research from other agents and the full travel request parameters:"),
       ("- Compile a day-by-day itinerary for the entire `duration`."),
       ("- Include specific booking recommendations with timing and estimated costs."),
       ("- Provide a prioritized booking order (flights first, then accommodation, then activities)."),
       ("- Add practical logistics: check-in/out times, transfer times between locations."),
       ("- Create a summary checklist of all bookings needed with deadlines."),
       ("- If any critical detail is missing, make a clearly labeled assumption and continue."),
       ("- Include at least 3 named stay options and at least 2 named transport choices in the final output."),
       ("- Budget section must include a validated cost table with explicit subtotal checks."),
       ("- Booking timeline must include exact calendar dates derived from `travel_dates` (not generic \x272 months before\x27)."),
       ("- Final response structure must be:"),
       ("  1) Trip Summary"),
       ("  2) Day-by-Day Itinerary (morning/afternoon/evening with estimated costs)"),
       ("  3) Accommodation Plan"),
       ("  4) Transportation Plan"),
       ("  5) Budget Breakdown (totals + remaining budget/overrun)"),
       ("  6) Booking Priority Timeline"),
       ("  7) Packing + Local Tips"),
       ("  8) Final Checklist")]
    markdown := true }

/-- One workflow step: a name bound to exactly one agent. -/
structure StepDef where
  name : String
  agent : AgentDef
deriving DecidableEq, Repr

/-- One stage of the workflow: a single step, or a named parallel group of
member steps in declared order. -/
inductive Stage where
  | single : StepDef → Stage
  | parallel : List StepDef → String → Stage
deriving DecidableEq, Repr

/-- A workflow declaration: name, description, input schema and the
ordered stage list. -/
structure WorkflowDef where
  name : String
  description : String
  inputSchema : List (String × FieldTy)
  steps : List Stage
deriving Repr

/-- Members of the `Independent Research` parallel group, in declared
order (lines 272-277). -/
def researchSteps : List StepDef :=
  [{ name := "Weather Research", agent := weather_agent },
   { name := "Destination Research", agent := destination_agent },
   { name := "Accommodation Research", agent := accommodation_agent },
   { name := "Transport Research", agent := transport_agent }]

/-- The `travel_workflow` declaration (lines 267-285). -/
def travel_workflow : WorkflowDef :=
  { name := "Travel Planner"
    description := "Multi-agent travel planning pipeline"
    inputSchema := travelRequestFields
    steps :=
      [.parallel researchSteps ("Independent Research"),
       .single { name := "Activities Curation", agent := activities_agent },
       .single { name := "Local Insights", agent := local_insider },
       .single { name := "Budget Optimization", agent := budget_agent },
       .single { name := "Final Itinerary", agent := booking_agent }] }

/-- Agents registered with the `AgentOS` (lines 287-299), in order. -/
def agent_os_agents : List AgentDef :=
  [weather_agent, destination_agent, accommodation_agent, transport_agent,
   activities_agent, local_insider, budget_agent, booking_agent]

/-! ## Workflow engine

The engine executing `travel_workflow` lives in the `agno` framework, not
in this repository, so it is modelled from the spec: stages run strictly
in declaration order, a stage starts only after all earlier stages
succeeded, parallel members see a snapshot holding only the original
input, and a group\x27s outputs merge in declared member order. -/

/-- Outcome of one agent invocation. -/
inductive StepOutcome where
  | success : String → StepOutcome
  | failure : String → StepOutcome
deriving DecidableEq, Repr

/-- Payload of a successful outcome (empty for failures). -/
def StepOutcome.payload : StepOutcome → String
  | .success p => p
  | .failure _ => ""

/-- Whether the outcome is a success. -/
def StepOutcome.isSuccess : StepOutcome → Bool
  | .success _ => true
  | .failure _ => false

/-- View of the session context an agent receives: the validated original
input and the upstream step outputs merged so far, keyed by step name. -/
structure CtxView where
  input : String → Option PyVal
  outputs : List (String × String)

/-- Behavior of the agents: step name and context view to outcome.  The
reasoning capability is an external collaborator, so it is a parameter. -/
def Behavior : Type :=
  String → CtxView → StepOutcome

/-- Modelled from the spec: parallel-group execution.  Members complete in
an arbitrary order `sched` (a permutation of the declared members); every
member is invoked against the snapshot context holding only the original
input; results are collected in completion order and then merged in the
group\x27s DECLARED member order; the group fails if any member failed. -/
def runParallel (beh : Behavior) (input : String → Option PyVal)
    (members sched : List StepDef) : Except String (List (String × String)) :=
  let snap : CtxView := { input := input, outputs := [] }
  let completed : List (String × StepOutcome) :=
    sched.map fun m => (m.name, beh m.name snap)
  if completed.all fun c => c.2.isSuccess then
    .ok (members.filterMap fun m =>
      (completed.lookup m.name).map fun o => (m.name, o.payload))
  else
    .error (((completed.filter fun c => !c.2.isSuccess).map Prod.fst).headD (""))

/-- Modelled from the spec: execution of one stage against the accumulated
context, returning the new outputs to merge or the failing step\x27s name.
A single step sees the full accumulated context; a parallel group runs
`runParallel` with the declared order as the default completion order. -/
def runStage (beh : Behavior) (input : String → Option PyVal)
    (acc : List (String × String)) : Stage → Except String (List (String × String))
  | .single s =>
    match beh s.name { input := input, outputs := acc } with
    | .success p => .ok [(s.name, p)]
    | .failure _ => .error s.name
  | .parallel members _ => runParallel beh input members members

/-- Name of a stage (the group name for a parallel group). -/
def stageName : Stage → String
  | .single s => s.name
  | .parallel _ n => n

/-- Signature of a stage: whether it is a parallel group, its name, and
its member step names in declared order. -/
def stageSig : Stage → Bool × String × List String
  | .single s => (false, s.name, [s.name])
  | .parallel ms n => (true, n, ms.map StepDef.name)

/-- Modelled from the spec: the engine loop.  Stages run in declaration
order; a failing stage stops the run; the returned trace lists the stages
that began, in execution order. -/
def runStages (beh : Behavior) (input : String → Option PyVal) :
    List Stage → List (String × String) → Except String (List (String × String)) × List String
  | [], acc => (.ok acc, [])
  | st :: rest, acc =>
    match runStage beh input acc st with
    | .ok outs =>
      let r := runStages beh input rest (acc ++ outs)
      (r.1, stageName st :: r.2)
    | .error failed => (.error failed, [stageName st])

/-- Result of a whole run. -/
inductive RunOutcome where
  | final : List (String × String) → RunOutcome
  | stageFailure : String → RunOutcome
  | validationError : RunOutcome
deriving DecidableEq, Repr

/-- Modelled from the spec: `run(input)`.  Validation happens first; a
malformed input aborts the run with a validation error before any agent
executes (the second component is the trace of stages that began). -/
def runTravel (beh : Behavior) (input : String → Option PyVal) :
    RunOutcome × List String :=
  if validateTR input then
    match runStages beh input travel_workflow.steps [] with
    | (.ok ctx, tr) => (.final ctx, tr)
    | (.error failed, tr) => (.stageFailure failed, tr)
  else
    (.validationError, [])

/-! ## Tool invocation layer with fallback

Modelled from the spec: `invokeWithFallback` tries tools strictly in
declared preference order, advances only on a recoverable error, stops on
success or on a value-error, and reports exhaustion; every attempt is
recorded in order. -/

/-- Outcome of one tool invocation, under the spec\x27s classification. -/
inductive ToolOutcome where
  | success : String → ToolOutcome
  | recoverable : String → ToolOutcome
  | valueError : String → ToolOutcome
deriving DecidableEq, Repr

/-- One tool capability: a name and an `invoke` contract. -/
structure ToolCap where
  name : String
  invoke : String → ToolOutcome

/-- One recorded attempt: tool identifier and its outcome. -/
structure ToolAttempt where
  tool : String
  outcome : ToolOutcome
deriving DecidableEq, Repr

/-- Result of a fallback chain. -/
inductive ChainResult where
  | ok : String → ChainResult
  | valueErr : String → ChainResult
  | exhausted : ChainResult
deriving DecidableEq, Repr

/-- Modelled from the spec: `invokeWithFallback(orderedTools, request)`,
also returning the recorded attempts in order. -/
def invokeWithFallback : List ToolCap → String → ChainResult × List ToolAttempt
  | [], _ => (.exhausted, [])
  | t :: rest, req =>
    match t.invoke req with
    | .success v => (.ok v, [{ tool := t.name, outcome := .success v }])
    | .valueError e => (.valueErr e, [{ tool := t.name, outcome := .valueError e }])
    | .recoverable e =>
      let r := invokeWithFallback rest req
      (r.1, { tool := t.name, outcome := .recoverable e } :: r.2)

/-! ## Concrete environment doubles used by witnesses and counterexamples -/

/-- Upstream double whose 200-response body is the JSON literal `null`. -/
def nullFetch : String → FetchOutcome := fun _ => FetchOutcome.ok Json.null

/-- Upstream double whose 200-response body is the JSON number `3.14`. -/
def numFetch : String → FetchOutcome := fun _ => FetchOutcome.ok (Json.num ("3.14"))

/-- Upstream double whose 200-response body is the JSON literal `true`. -/
def boolFetch : String → FetchOutcome := fun _ => FetchOutcome.ok (Json.bool true)

/-- Upstream double that always fails with a network error. -/
def downFetch : String → FetchOutcome := fun _ => FetchOutcome.urlError ("timed out")

/-- Behavior double in which every agent succeeds, echoing its step name. -/
def echoBeh : Behavior := fun n _ => StepOutcome.success n

/-- Empty raw input (every field missing). -/
def emptyInput : String → Option PyVal := fun _ => none

/-! ## Helper lemmas -/

/-- Boolean prefix test between whole strings. -/
def startsW (s p : String) : Bool :=
  strStarts s.data p.data

theorem charOfNat_toNat_of_range {n : Nat} (h1 : 97 ≤ n) (h2 : n ≤ 122) :
    (Char.ofNat (n - 32)).toNat = n - 32 := by
  have hv : (n - 32).isValidChar := Or.inl (by omega)
  rw [Char.ofNat, dif_pos hv]
  rfl

theorem charToUpper_eq (c : Char) :
    c.toUpper = if c.toNat ≥ 97 ∧ c.toNat ≤ 122 then Char.ofNat (c.toNat - 32) else c := rfl

theorem toNat_toUpper_not_lower (c : Char) :
    ¬(c.toUpper.toNat ≥ 97 ∧ c.toUpper.toNat ≤ 122) := by
  rw [charToUpper_eq]
  by_cases h : c.toNat ≥ 97 ∧ c.toNat ≤ 122
  · rw [if_pos h, charOfNat_toNat_of_range h.1 h.2]
    omega
  · rw [if_neg h]
    exact h

theorem charToUpper_idem (c : Char) : c.toUpper.toUpper = c.toUpper := by
  conv_lhs => rw [charToUpper_eq c.toUpper]
  rw [if_neg (toNat_toUpper_not_lower c)]

theorem pyUpper_idem (s : String) : pyUpper (pyUpper s) = pyUpper s := by
  show String.mk ((s.data.map Char.toUpper).map Char.toUpper) = String.mk (s.data.map Char.toUpper)
  rw [List.map_map]
  exact congrArg String.mk (List.map_congr_left fun x _ => charToUpper_idem x)

theorem buildRequestUrl_upper (k f t a : String) :
    buildRequestUrl k (pyUpper f) (pyUpper t) a = buildRequestUrl k f t a := by
  simp only [buildRequestUrl, pyUpper_idem]

theorem strStarts_append (p s : List Char) : strStarts (p ++ s) p = true := by
  induction p with
  | nil => simp [strStarts]
  | cons a as ih => simp [strStarts, ih]

theorem startsW_append (p x : String) : startsW (p ++ x) p = true := by
  simp only [startsW, String.data_append]
  exact strStarts_append p.data x.data

theorem dictGet_isSome_of_hasKey {fields : List (String × Json)} {k : String}
    (h : hasKeyB fields k = true) : ∃ v, dictGet fields k = some v := by
  induction fields with
  | nil => simp [hasKeyB] at h
  | cons kv rest ih =>
    simp only [dictGet]
    cases hr : dictGet rest k with
    | some v => exact ⟨v, rfl⟩
    | none =>
      simp only [hasKeyB, List.any_cons, Bool.or_eq_true] at h
      rcases h with h | h
      · exact ⟨kv.2, by rw [if_pos h]⟩
      · rcases ih h with ⟨v, hv⟩
        rw [hv] at hr
        cases hr

theorem startsW_conv_success (x y z : String) :
    startsW ((("Converted amount: " ++ x) ++ y) ++ z) ("Converted amount: ") = true := by
  rw [String.append_assoc, String.append_assoc]
  exact startsW_append _ _

theorem not_startsW_failed_conv (d : String) :
    startsW ("Currency conversion failed: " ++ d) ("Converted amount: ") = false := rfl

/-! ## Claim theorems -/

/-- C3: with `RATE_CONVERTER_API_KEY` unset, `convert_currency` returns
the failure message naming the missing credential and issues no network
request at all, for every network behavior and every argument triple. -/
theorem convert_currency_missing_key_no_request :
    ∀ (fetch : String → FetchOutcome) (f t a : String),
      convert_currency none fetch f t a =
        (Except.ok ("Currency conversion failed: RATE_CONVERTER_API_KEY is not set."),
         ([] : List String)) :=
  fun _ _ _ _ => rfl

/-- C9: `convert_currency` is case-insensitive in its currency-code
arguments — uppercasing them first changes neither the request URL that is
built nor the overall result, because both codes are uppercased before the
URL is formed and Python\x27s `upper` is idempotent. -/
theorem convert_currency_uppercase_insensitive :
    (∀ k f t a : String,
      buildRequestUrl k (pyUpper f) (pyUpper t) a = buildRequestUrl k f t a) ∧
    ∀ (api_key : Option String) (fetch : String → FetchOutcome) (f t a : String),
      convert_currency api_key fetch (pyUpper f) (pyUpper t) a =
        convert_currency api_key fetch f t a := by
  refine ⟨buildRequestUrl_upper, ?_⟩
  intro api_key fetch f t a
  cases api_key with
  | none => rfl
  | some key => simp only [convert_currency, buildRequestUrl_upper]

/-- C2 (code bug evaluation): when the key is set and the upstream answers
200 with the JSON number `3.14` as body, `convert_currency` does not
return a string at all — the membership test `"result" in payload` on
line 64 sits outside the `try` block and raises an uncaught `TypeError`,
contradicting the docstring\x27s promise to return a result or an error
message. -/
theorem convert_currency_raises_on_numeric_payload :
    (convert_currency (some ("key")) numFetch ("USD") ("EUR") ("100")).1 =
      Except.error (PyExc.typeError ("argument of type \x27float\x27 is not iterable")) := rfl

/-- C1 (counterexample): a call in which the HTTP request succeeds and the
body parses as JSON (`null`) where the claimed dichotomy fails — neither
key is present, yet the function raises a `TypeError` instead of returning
the failure message containing the payload (`str(None)` is `None`). -/
theorem convert_currency_raises_on_null_payload :
    (convert_currency (some ("key")) nullFetch ("USD") ("EUR") ("100")).1 =
      Except.error (PyExc.typeError ("argument of type \x27NoneType\x27 is not iterable")) ∧
    pyStr Json.null = "None" ∧
    (convert_currency (some ("key")) nullFetch ("USD") ("EUR") ("100")).1 ≠
      Except.ok ("Currency conversion failed: None") := by
  refine ⟨rfl, by simp [pyStr, pyRepr], ?_⟩
  intro hc
  rw [show (convert_currency (some ("key")) nullFetch ("USD") ("EUR") ("100")).1 =
      Except.error (PyExc.typeError ("argument of type \x27NoneType\x27 is not iterable")) from rfl] at hc
  cases hc

/-- C1 (amended): when the key is set and the body parses as a JSON
OBJECT, `convert_currency` returns the success message
`Converted amount: {result} {to}` exactly when the object has both a
`result` and a `to` key, and returns the failure message containing the
payload when either key is absent (non-object payloads can instead raise,
see the counterexample). -/
theorem convert_currency_object_payload_classification
    (key f t a : String) (fields : List (String × Json)) (hk : key ≠ "") :
    ((hasKeyB fields ("result") = true ∧ hasKeyB fields ("to") = true) →
      ∃ v w, dictGet fields ("result") = some v ∧ dictGet fields ("to") = some w ∧
        (convert_currency (some key) (fun _ => FetchOutcome.ok (Json.obj fields)) f t a).1 =
          Except.ok ("Converted amount: " ++ pyStr v ++ " " ++ pyStr w)) ∧
    (¬(hasKeyB fields ("result") = true ∧ hasKeyB fields ("to") = true) →
      (convert_currency (some key) (fun _ => FetchOutcome.ok (Json.obj fields)) f t a).1 =
        Except.ok ("Currency conversion failed: " ++ pyStr (Json.obj fields))) ∧
    ((∃ s, (convert_currency (some key) (fun _ => FetchOutcome.ok (Json.obj fields)) f t a).1 =
        Except.ok s ∧ startsW s ("Converted amount: ") = true) ↔
      (hasKeyB fields ("result") = true ∧ hasKeyB fields ("to") = true)) := by
  have hk' : (key == "") = false := by simp [hk]
  by_cases hR : hasKeyB fields ("result") = true
  · by_cases hT : hasKeyB fields ("to") = true
    · obtain ⟨v, hv⟩ := dictGet_isSome_of_hasKey hR
      obtain ⟨w, hw⟩ := dictGet_isSome_of_hasKey hT
      have hres : (convert_currency (some key)
          (fun _ => FetchOutcome.ok (Json.obj fields)) f t a).1 =
          Except.ok ("Converted amount: " ++ pyStr v ++ " " ++ pyStr w) := by
        simp only [convert_currency, pyIn, pySubscript, hk', hR, hT, hv, hw]
        simp
      refine ⟨fun _ => ⟨v, w, hv, hw, hres⟩, fun hcon => absurd ⟨hR, hT⟩ hcon, ?_⟩
      exact ⟨fun _ => ⟨hR, hT⟩, fun _ => ⟨_, hres, startsW_conv_success _ _ _⟩⟩
    · have hT' : hasKeyB fields ("to") = false := by
        revert hT
        cases hasKeyB fields ("to") <;> simp
      have hres : (convert_currency (some key)
          (fun _ => FetchOutcome.ok (Json.obj fields)) f t a).1 =
          Except.ok ("Currency conversion failed: " ++ pyStr (Json.obj fields)) := by
        simp only [convert_currency, pyIn, hk', hR, hT']
        simp
      refine ⟨fun hcon => absurd hcon.2 hT, fun _ => hres, ?_⟩
      constructor
      · rintro ⟨s, hs, hstart⟩
        rw [hres] at hs
        injection hs with h2
        subst h2
        rw [not_startsW_failed_conv] at hstart
        exact Bool.noConfusion hstart
      · rintro ⟨_, hcon⟩
        exact absurd hcon hT
  · have hR' : hasKeyB fields ("result") = false := by
      revert hR
      cases hasKeyB fields ("result") <;> simp
    have hres : (convert_currency (some key)
        (fun _ => FetchOutcome.ok (Json.obj fields)) f t a).1 =
        Except.ok ("Currency conversion failed: " ++ pyStr (Json.obj fields)) := by
      simp only [convert_currency, pyIn, hk', hR']
      simp
    refine ⟨fun hcon => absurd hcon.1 hR, fun _ => hres, ?_⟩
    constructor
    · rintro ⟨s, hs, hstart⟩
      rw [hres] at hs
      injection hs with h2
      subst h2
      rw [not_startsW_failed_conv] at hstart
      exact Bool.noConfusion hstart
    · rintro ⟨hcon, _⟩
      exact absurd hcon hR

/-- C1 (witness): on the object payload with both keys, the call returns
the success message at a concrete input. -/
theorem convert_currency_object_payload_classification_witness :
    (("key" : String) ≠ "") ∧
    (convert_currency (some ("key"))
        (fun _ => FetchOutcome.ok
          (Json.obj [(("result"), Json.num ("1.23")), (("to"), Json.str ("EUR"))]))
        ("usd") ("eur") ("100")).1 =
      Except.ok ("Converted amount: 1.23 EUR") := by
  refine ⟨by decide, ?_⟩
  obtain ⟨hsucc, -, -⟩ :=
    convert_currency_object_payload_classification ("key") ("usd") ("eur") ("100")
      [(("result"), Json.num ("1.23")), (("to"), Json.str ("EUR"))] (by decide)
  obtain ⟨v, w, hv, hw, he⟩ := hsucc ⟨by decide, by decide⟩
  have hv' : v = Json.num ("1.23") := by
    have hdg : dictGet [(("result"), Json.num ("1.23")), (("to"), Json.str ("EUR"))]
        ("result") = some (Json.num ("1.23")) := rfl
    rw [hdg] at hv
    injection hv with h2
    exact h2.symm
  have hw' : w = Json.str ("EUR") := by
    have hdg : dictGet [(("result"), Json.num ("1.23")), (("to"), Json.str ("EUR"))]
        ("to") = some (Json.str ("EUR")) := rfl
    rw [hdg] at hw
    injection hw with h2
    exact h2.symm
  subst hv'
  subst hw'
  rw [he]
  have h1 : pyStr (Json.num ("1.23")) = "1.23" := by simp [pyStr, pyRepr]
  have h2 : pyStr (Json.str ("EUR")) = "EUR" := rfl
  rw [h1, h2]
  rfl

/-- C10 (counterexample): on a boolean payload the failure path raises a
`TypeError` rather than returning a string beginning with the failure
prefix, so the claimed universal prefix classification fails. -/
theorem convert_currency_no_string_on_bool_payload :
    (convert_currency (some ("key")) boolFetch ("USD") ("EUR") ("50")).1 =
      Except.error (PyExc.typeError ("argument of type \x27bool\x27 is not iterable")) := rfl

/-- C10 (amended): every string `convert_currency` actually returns is
classified by its prefix — exactly one of `Converted amount: ` (the single
success path) and `Currency conversion failed` (every returning failure
path) starts it. -/
theorem convert_currency_prefix_classification
    (api_key : Option String) (fetch : String → FetchOutcome) (f t a s : String)
    (h : (convert_currency api_key fetch f t a).1 = Except.ok s) :
    (startsW s ("Converted amount: ") = true ∧
      startsW s ("Currency conversion failed") = false) ∨
    (startsW s ("Currency conversion failed") = true ∧
      startsW s ("Converted amount: ") = false) := by
  cases api_key with
  | none =>
    simp only [convert_currency] at h
    injection h with h2
    subst h2
    exact Or.inr ⟨rfl, rfl⟩
  | some key =>
    simp only [convert_currency] at h
    split at h
    · injection h with h2
      subst h2
      exact Or.inr ⟨rfl, rfl⟩
    · cases hf : fetch (buildRequestUrl key f t a) with
      | httpError code =>
        rw [hf] at h
        injection h with h2
        subst h2
        exact Or.inr ⟨rfl, rfl⟩
      | urlError reason =>
        rw [hf] at h
        injection h with h2
        subst h2
        exact Or.inr ⟨rfl, rfl⟩
      | raised msg =>
        rw [hf] at h
        injection h with h2
        subst h2
        exact Or.inr ⟨rfl, rfl⟩
      | ok payload =>
        rw [hf] at h
        dsimp only at h
        cases hr : pyIn ("result") payload with
        | error e =>
          rw [hr] at h
          simp at h
        | ok hasResult =>
          rw [hr] at h
          dsimp only at h
          cases hasResult with
          | false =>
            injection h with h2
            subst h2
            exact Or.inr ⟨rfl, rfl⟩
          | true =>
            cases ht : pyIn ("to") payload with
            | error e =>
              rw [ht] at h
              simp at h
            | ok hasTo =>
              rw [ht] at h
              dsimp only at h
              cases hasTo with
              | false =>
                injection h with h2
                subst h2
                exact Or.inr ⟨rfl, rfl⟩
              | true =>
                cases hv : pySubscript payload ("result") with
                | error e =>
                  rw [hv] at h
                  simp at h
                | ok v =>
                  rw [hv] at h
                  dsimp only at h
                  cases hw : pySubscript payload ("to") with
                  | error e =>
                    rw [hw] at h
                    simp at h
                  | ok w =>
                    rw [hw] at h
                    injection h with h2
                    subst h2
                    exact Or.inl ⟨startsW_conv_success _ _ _, rfl⟩

theorem isStrB_iff (x : PyVal) : isStrB x = true ↔ ∃ s, x = PyVal.str s := by
  cases x <;> simp [isStrB]

theorem fieldOk_str_iff (input : String → Option PyVal) (n : String) :
    fieldOk input (n, FieldTy.str) = true ↔ ∃ s, input n = some (PyVal.str s) := by
  unfold fieldOk
  cases h : input n with
  | none => simp
  | some v => cases v <;> simp [typeOk, isStrB]

theorem fieldOk_listStr_iff (input : String → Option PyVal) (n : String) :
    fieldOk input (n, FieldTy.listStr) = true ↔
      ∃ xs, input n = some (PyVal.list xs) ∧ ∀ x ∈ xs, ∃ s, x = PyVal.str s := by
  unfold fieldOk
  cases h : input n with
  | none => simp
  | some v => cases v <;> simp [typeOk, List.all_eq_true, isStrB_iff]

/-- C4: validation accepts exactly the inputs supplying all 12 declared
fields with the declared types, and a failing validation aborts the run
with a validation error before any agent executes (empty stage trace). -/
theorem travel_workflow_validation :
    (∀ input : String → Option PyVal,
      validateTR input = true ↔
        ((∃ s, input ("destination") = some (PyVal.str s)) ∧
         (∃ s, input ("travel_purpose") = some (PyVal.str s)) ∧
         (∃ s, input ("travel_companions") = some (PyVal.str s)) ∧
         (∃ s, input ("travel_dates") = some (PyVal.str s)) ∧
         (∃ s, input ("departure_location") = some (PyVal.str s)) ∧
         (∃ s, input ("date_flexibility") = some (PyVal.str s)) ∧
         (∃ s, input ("accommodation_type") = some (PyVal.str s)) ∧
         (∃ s, input ("budget") = some (PyVal.str s)) ∧
         (∃ xs, input ("interests_activities") = some (PyVal.list xs) ∧
            ∀ x ∈ xs, ∃ s, x = PyVal.str s) ∧
         (∃ s, input ("travel_style") = some (PyVal.str s)) ∧
         (∃ s, input ("duration") = some (PyVal.str s)) ∧
         (∃ s, input ("budget_flexibility") = some (PyVal.str s)))) ∧
    (∀ (beh : Behavior) (input : String → Option PyVal),
      validateTR input = false →
        runTravel beh input = (RunOutcome.validationError, [])) := by
  constructor
  · intro input
    simp only [validateTR, travelRequestFields, List.all_cons, List.all_nil,
      Bool.and_eq_true, and_true, fieldOk_str_iff, fieldOk_listStr_iff]
  · intro beh input hfail
    simp [runTravel, hfail]

/-- C4 (witness): the empty input is rejected and its run performs no
agent work. -/
theorem travel_workflow_validation_witness :
    validateTR emptyInput = false ∧
    runTravel echoBeh emptyInput = (RunOutcome.validationError, []) :=
  ⟨rfl, travel_workflow_validation.2 echoBeh emptyInput rfl⟩

/-- C10 (witness): the missing-credential message is classified on the
failure side by the prefix test. -/
theorem convert_currency_prefix_classification_witness :
    (startsW ("Currency conversion failed: RATE_CONVERTER_API_KEY is not set.")
        ("Converted amount: ") = true ∧
      startsW ("Currency conversion failed: RATE_CONVERTER_API_KEY is not set.")
        ("Currency conversion failed") = false) ∨
    (startsW ("Currency conversion failed: RATE_CONVERTER_API_KEY is not set.")
        ("Currency conversion failed") = true ∧
      startsW ("Currency conversion failed: RATE_CONVERTER_API_KEY is not set.")
        ("Converted amount: ") = false) := by
  have h := convert_currency_prefix_classification none downFetch ("USD") ("EUR") ("100")
    ("Currency conversion failed: RATE_CONVERTER_API_KEY is not set.") rfl
  rcases h with h | h
  · exact Or.inl h
  · exact Or.inr h

theorem runStages_trace (beh : Behavior) (input : String → Option PyVal) :
    ∀ (stages : List Stage) (acc : List (String × String)),
      (∃ suffix, stages.map stageName = (runStages beh input stages acc).2 ++ suffix) ∧
      ∀ ctx, (runStages beh input stages acc).1 = Except.ok ctx →
        (runStages beh input stages acc).2 = stages.map stageName := by
  intro stages
  induction stages with
  | nil =>
    intro acc
    exact ⟨⟨[], rfl⟩, fun ctx _ => rfl⟩
  | cons st rest ih =>
    intro acc
    simp only [runStages, List.map_cons]
    cases hs : runStage beh input acc st with
    | ok outs =>
      dsimp only
      obtain ⟨⟨suf, hsuf⟩, hfull⟩ := ih (acc ++ outs)
      constructor
      · exact ⟨suf, by simp [hsuf]⟩
      · intro ctx hok
        rw [hfull ctx hok]
    | error f =>
      dsimp only
      constructor
      · exact ⟨rest.map stageName, rfl⟩
      · intro ctx hok
        exact Except.noConfusion hok

/-- C5: the declared stage list is exactly the parallel Independent
Research group (with its four members in order) followed by the four
single steps, and the engine starts stages in declaration order — the
trace of started stages is always a prefix of the declared order, and a
successful run starts exactly the declared stages. -/
theorem travel_workflow_stage_order :
    travel_workflow.steps.map stageSig =
      [(true, ("Independent Research"),
        [("Weather Research"), ("Destination Research"), ("Accommodation Research"),
         ("Transport Research")]),
       (false, ("Activities Curation"), [("Activities Curation")]),
       (false, ("Local Insights"), [("Local Insights")]),
       (false, ("Budget Optimization"), [("Budget Optimization")]),
       (false, ("Final Itinerary"), [("Final Itinerary")])] ∧
    ∀ (beh : Behavior) (input : String → Option PyVal),
      (∃ suffix, travel_workflow.steps.map stageName =
        (runStages beh input travel_workflow.steps []).2 ++ suffix) ∧
      ∀ ctx, (runStages beh input travel_workflow.steps []).1 = Except.ok ctx →
        (runStages beh input travel_workflow.steps []).2 =
          travel_workflow.steps.map stageName :=
  ⟨rfl, fun beh input => runStages_trace beh input travel_workflow.steps []⟩

/-- C5 (witness): under an all-success behavior the started stages are
exactly the declared ones, in order. -/
theorem travel_workflow_stage_order_witness :
    (runStages echoBeh emptyInput travel_workflow.steps []).2 =
      travel_workflow.steps.map stageName :=
  ((travel_workflow_stage_order.2 echoBeh emptyInput).2) _ rfl

theorem lookup_name_map (f : StepDef → StepOutcome) :
    ∀ (l : List StepDef) (m : StepDef),
      (l.map StepDef.name).Nodup → m ∈ l →
      (l.map fun s => (s.name, f s)).lookup m.name = some (f m) := by
  intro l
  induction l with
  | nil =>
    intro m _ hm
    cases hm
  | cons s rest ih =>
    intro m hnd hm
    have hnd' : (∀ x ∈ rest, ¬x.name = s.name) ∧ (rest.map StepDef.name).Nodup := by
      simpa using hnd
    by_cases he : m.name = s.name
    · rcases List.mem_cons.mp hm with rfl | hmr
      · simp [List.lookup]
      · exact absurd he (hnd'.1 m hmr)
    · rcases List.mem_cons.mp hm with rfl | hmr
      · exact absurd rfl he
      · have hbe : (m.name == s.name) = false := by simp [he]
        simp only [List.map_cons, List.lookup, hbe]
        exact ih m hnd'.2 hmr

theorem filterMap_lookup (f : StepDef → StepOutcome) :
    ∀ (members : List StepDef) (completed : List (String × StepOutcome)),
      (∀ m ∈ members, completed.lookup m.name = some (f m)) →
      (members.filterMap fun m =>
        (completed.lookup m.name).map fun o => (m.name, o.payload)) =
        members.map fun m => (m.name, (f m).payload) := by
  intro members
  induction members with
  | nil =>
    intro c _
    rfl
  | cons m rest ih =>
    intro c h
    simp only [List.filterMap_cons, h m (List.mem_cons_self m rest), Option.map_some',
      List.map_cons]
    rw [ih c fun x hx => h x (List.mem_cons_of_mem m hx)]

/-- C6: for every completion order of the Independent Research members in
which all four succeed, the merged outputs are keyed, in order, exactly by
the four declared member names — the merge follows declared order, not
completion order, so the downstream context is completion-timing
independent. -/
theorem independent_research_merge_order :
    travel_workflow.steps.take 1 =
      [Stage.parallel researchSteps ("Independent Research")] ∧
    ∀ (beh : Behavior) (input : String → Option PyVal) (sched : List StepDef),
      sched.Perm researchSteps →
      (∀ m ∈ researchSteps,
        (beh m.name { input := input, outputs := [] }).isSuccess = true) →
      runParallel beh input researchSteps sched =
        Except.ok (researchSteps.map fun m =>
          (m.name, (beh m.name { input := input, outputs := [] }).payload)) ∧
      (researchSteps.map fun m =>
          (m.name, (beh m.name { input := input, outputs := [] }).payload)).map Prod.fst =
        [("Weather Research"), ("Destination Research"), ("Accommodation Research"),
         ("Transport Research")] := by
  refine ⟨rfl, ?_⟩
  intro beh input sched hperm hsucc
  refine ⟨?_, rfl⟩
  have hall : (sched.map fun m =>
      (m.name, beh m.name { input := input, outputs := [] })).all
        (fun c => c.2.isSuccess) = true := by
    rw [List.all_eq_true]
    intro c hc
    rcases List.mem_map.mp hc with ⟨m, hm, rfl⟩
    exact hsucc m (hperm.subset hm)
  have hnodup : (sched.map StepDef.name).Nodup := by
    have hconc : (researchSteps.map StepDef.name).Nodup := by decide
    exact ((hperm.map StepDef.name).nodup_iff).mpr hconc
  have hlook : ∀ m ∈ researchSteps,
      ((sched.map fun s =>
        (s.name, beh s.name { input := input, outputs := [] })).lookup m.name) =
        some (beh m.name { input := input, outputs := [] }) := by
    intro m hm
    exact lookup_name_map (fun s => beh s.name { input := input, outputs := [] })
      sched m hnodup (hperm.symm.subset hm)
  simp only [runParallel, hall, if_true]
  rw [filterMap_lookup (fun s => beh s.name { input := input, outputs := [] })
    researchSteps _ hlook]

/-- C6 (witness): with a reversed completion order and all members
succeeding (echoing their names), the merged context is keyed in declared
order. -/
theorem independent_research_merge_order_witness :
    runParallel echoBeh emptyInput researchSteps researchSteps.reverse =
      Except.ok [(("Weather Research"), ("Weather Research")),
                 (("Destination Research"), ("Destination Research")),
                 (("Accommodation Research"), ("Accommodation Research")),
                 (("Transport Research"), ("Transport Research"))] := by
  have h := (independent_research_merge_order.2 echoBeh emptyInput researchSteps.reverse
    (List.reverse_perm researchSteps) (by decide)).1
  rw [h]
  rfl

/-- C7: the fallback chain tries tools strictly in declared preference
order — it stops on success and on value-error, advances only on a
recoverable error, and for tools `[A, B]` with A recoverable and B
succeeding it returns B\x27s result after recording exactly the attempts
A then B; the budget agent declares the currency chain `convert_currency`
falling back to the YFinance forex tool. -/
theorem invokeWithFallback_order :
    (∀ (tl : ToolCap) (rest : List ToolCap) (req v : String),
        tl.invoke req = ToolOutcome.success v →
        invokeWithFallback (tl :: rest) req =
          (ChainResult.ok v, [{ tool := tl.name, outcome := ToolOutcome.success v }])) ∧
    (∀ (tl : ToolCap) (rest : List ToolCap) (req e : String),
        tl.invoke req = ToolOutcome.valueError e →
        invokeWithFallback (tl :: rest) req =
          (ChainResult.valueErr e,
           [{ tool := tl.name, outcome := ToolOutcome.valueError e }])) ∧
    (∀ (tl : ToolCap) (rest : List ToolCap) (req e : String),
        tl.invoke req = ToolOutcome.recoverable e →
        invokeWithFallback (tl :: rest) req =
          ((invokeWithFallback rest req).1,
           { tool := tl.name, outcome := ToolOutcome.recoverable e } ::
             (invokeWithFallback rest req).2)) ∧
    (∀ (A B : ToolCap) (req eA vB : String),
        A.invoke req = ToolOutcome.recoverable eA →
        B.invoke req = ToolOutcome.success vB →
        invokeWithFallback [A, B] req =
          (ChainResult.ok vB,
           [{ tool := A.name, outcome := ToolOutcome.recoverable eA },
            { tool := B.name, outcome := ToolOutcome.success vB }])) ∧
    budget_agent.instructions.contains
      ("- Prefer the `convert_currency` tool for currency conversion.") = true ∧
    budget_agent.instructions.contains
      ("- If `convert_currency` fails, fall back to YFinanceTools (e.g. USDEUR=X forex pairs).") = true ∧
    budget_agent.toolNames.contains ("convert_currency") = true ∧
    budget_agent.toolNames.contains ("YFinanceTools") = true := by
  refine ⟨?_, ?_, ?_, ?_, rfl, rfl, rfl, rfl⟩
  · intro tl rest req v h
    simp [invokeWithFallback, h]
  · intro tl rest req e h
    simp [invokeWithFallback, h]
  · intro tl rest req e h
    simp [invokeWithFallback, h]
  · intro A B req eA vB hA hB
    simp [invokeWithFallback, hA, hB]

/-- C7 (witness): a concrete two-tool chain — `convert_currency`
recoverable, the YFinance tool succeeding — returns the second tool\x27s
result with the two attempts recorded in order. -/
theorem invokeWithFallback_order_witness :
    invokeWithFallback
      [{ name := "convert_currency", invoke := fun _ => ToolOutcome.recoverable ("timeout") },
       { name := "YFinanceTools", invoke := fun _ => ToolOutcome.success ("0.92") }]
      ("USD to EUR") =
      (ChainResult.ok ("0.92"),
       [{ tool := "convert_currency", outcome := ToolOutcome.recoverable ("timeout") },
        { tool := "YFinanceTools", outcome := ToolOutcome.success ("0.92") }]) := by
  exact invokeWithFallback_order.2.2.2.1
    { name := "convert_currency", invoke := fun _ => ToolOutcome.recoverable ("timeout") }
    { name := "YFinanceTools", invoke := fun _ => ToolOutcome.success ("0.92") }
    ("USD to EUR") ("timeout") ("0.92") rfl rfl

/-- C8: exactly one agent of the eight registered with the AgentOS
declares a per-invocation tool-call bound — the Local Insider — and its
value is 10. -/
theorem local_insider_tool_call_limit :
    (agent_os_agents.filter fun ag => ag.tool_call_limit.isSome).map AgentDef.name =
      [("Local Insider")] ∧
    local_insider.tool_call_limit = some 10 :=
  ⟨rfl, rfl⟩

end TravelPlanner
